import Mathlib

/-
Formal model of the Clinical Risk Scoring and Alerting Engine of this
repository (src/app.py and src/train_model.py), as a shallow embedding:
Python numbers become rationals, pandas rows and the session dict become
structures, and the Streamlit alert calls become elements of an explicit
alert list. Definitions keep the names used in the source.
-/

namespace CDSS

/-- Overall status rule, src/app.py line 247: the status is Critical when
pred_bleeding > 50 or pred_aki > 50 or pred_sepsis >= 2, else Stable. -/
def status_calc (pred_bleeding pred_aki pred_sepsis : ℚ) : String :=
  if pred_bleeding > 50 ∨ pred_aki > 50 ∨ pred_sepsis ≥ 2 then "Critical" else "Stable"

/-- C1: for every scored patient, overall_status is Critical if and only if
bleeding_risk_pct > 50 or aki_risk_pct > 50 or sepsis_score >= 2, and Stable
otherwise. -/
theorem overall_status_critical_iff (b a s : ℚ) :
    (status_calc b a s = "Critical" ↔ (b > 50 ∨ a > 50 ∨ s ≥ 2)) ∧
    (status_calc b a s = "Stable" ↔ ¬(b > 50 ∨ a > 50 ∨ s ≥ 2)) := by
  unfold status_calc
  split_ifs with h
  · exact ⟨iff_of_true rfl h, iff_of_false (by decide) (not_not_intro h)⟩
  · exact ⟨iff_of_false (by decide) h, iff_of_true rfl h⟩

/-- One row of the batch table, restricted to the vital-sign columns read by
calculate_news (src/app.py lines 840-870). Numeric cells are rationals. -/
structure BatchVitals where
  Resp_Rate : ℚ
  O2_Sat : ℚ
  Systolic_BP : ℚ
  Heart_Rate : ℚ
  Altered_Mental : ℚ
  Temp_C : ℚ

/-- NEWS-2 score, src/app.py lines 840-870: score starts at 0 and each of the
six parameters adds its band points through an if/elif chain. -/
def calculate_news (row : BatchVitals) : ℕ :=
  (if row.Resp_Rate ≤ 8 ∨ row.Resp_Rate ≥ 25 then 3
   else if row.Resp_Rate ≥ 21 then 2
   else if row.Resp_Rate ≤ 11 then 1 else 0) +
  (if row.O2_Sat ≤ 91 then 3
   else if row.O2_Sat ≤ 93 then 2
   else if row.O2_Sat ≤ 95 then 1 else 0) +
  (if row.Systolic_BP ≤ 90 ∨ row.Systolic_BP ≥ 220 then 3
   else if row.Systolic_BP ≤ 100 then 2
   else if row.Systolic_BP ≤ 110 then 1 else 0) +
  (if row.Heart_Rate ≤ 40 ∨ row.Heart_Rate ≥ 131 then 3
   else if row.Heart_Rate ≥ 111 then 2
   else if row.Heart_Rate ≤ 50 ∨ row.Heart_Rate ≥ 91 then 1 else 0) +
  (if row.Altered_Mental = 1 then 3 else 0) +
  (if row.Temp_C ≤ 35 then 3
   else if row.Temp_C ≥ 39.1 then 2
   else if row.Temp_C ≤ 36 ∨ row.Temp_C ≥ 38.1 then 1 else 0)

/-- Respiratory-rate band points as the spec states them: at most 8 or at
least 25 scores 3, at least 21 scores 2, at most 11 scores 1, the first
matching band in this order winning. -/
def rr_points (row : BatchVitals) : ℕ :=
  if row.Resp_Rate ≤ 8 ∨ row.Resp_Rate ≥ 25 then 3
  else if row.Resp_Rate ≥ 21 then 2
  else if row.Resp_Rate ≤ 11 then 1 else 0

/-- SpO2 band points: at most 91 scores 3, at most 93 scores 2, at most 95
scores 1, highest band winning. -/
def spo2_points (row : BatchVitals) : ℕ :=
  if row.O2_Sat ≤ 91 then 3
  else if row.O2_Sat ≤ 93 then 2
  else if row.O2_Sat ≤ 95 then 1 else 0

/-- Systolic blood-pressure band points: at most 90 or at least 220 scores 3,
at most 100 scores 2, at most 110 scores 1, highest band winning. -/
def sbp_points (row : BatchVitals) : ℕ :=
  if row.Systolic_BP ≤ 90 ∨ row.Systolic_BP ≥ 220 then 3
  else if row.Systolic_BP ≤ 100 then 2
  else if row.Systolic_BP ≤ 110 then 1 else 0

/-- Heart-rate band points: at most 40 or at least 131 scores 3, at least 111
scores 2, at most 50 or at least 91 scores 1, highest band winning. -/
def hr_points (row : BatchVitals) : ℕ :=
  if row.Heart_Rate ≤ 40 ∨ row.Heart_Rate ≥ 131 then 3
  else if row.Heart_Rate ≥ 111 then 2
  else if row.Heart_Rate ≤ 50 ∨ row.Heart_Rate ≥ 91 then 1 else 0

/-- Consciousness points: altered consciousness scores 3. -/
def consciousness_points (row : BatchVitals) : ℕ :=
  if row.Altered_Mental = 1 then 3 else 0

/-- Temperature band points: at most 35.0 scores 3, at least 39.1 scores 2,
at most 36.0 or at least 38.1 scores 1, highest band winning. -/
def temp_points (row : BatchVitals) : ℕ :=
  if row.Temp_C ≤ 35 then 3
  else if row.Temp_C ≥ 39.1 then 2
  else if row.Temp_C ≤ 36 ∨ row.Temp_C ≥ 38.1 then 1 else 0

lemma rr_points_le (row : BatchVitals) : rr_points row ≤ 3 := by
  unfold rr_points; split_ifs <;> norm_num

lemma spo2_points_le (row : BatchVitals) : spo2_points row ≤ 3 := by
  unfold spo2_points; split_ifs <;> norm_num

lemma sbp_points_le (row : BatchVitals) : sbp_points row ≤ 3 := by
  unfold sbp_points; split_ifs <;> norm_num

lemma hr_points_le (row : BatchVitals) : hr_points row ≤ 3 := by
  unfold hr_points; split_ifs <;> norm_num

lemma consciousness_points_le (row : BatchVitals) : consciousness_points row ≤ 3 := by
  unfold consciousness_points; split_ifs <;> norm_num

lemma temp_points_le (row : BatchVitals) : temp_points row ≤ 3 := by
  unfold temp_points; split_ifs <;> norm_num

/-- C2: for every batch row the NEWS-2 score is the sum of the per-parameter
banded points, bands inclusive on the documented boundary with the highest
matching band winning within each parameter; the test vectors RR=8, RR=25,
RR=21, RR=15 (other parameters benign) score 3, 3, 2, 0; and the total lies
in the interval from 0 to 20. -/
theorem news2_banded_sum (row : BatchVitals) :
    calculate_news row =
      rr_points row + spo2_points row + sbp_points row + hr_points row +
        consciousness_points row + temp_points row ∧
    calculate_news row ≤ 20 ∧
    calculate_news ⟨8, 98, 120, 70, 0, 37⟩ = 3 ∧
    calculate_news ⟨25, 98, 120, 70, 0, 37⟩ = 3 ∧
    calculate_news ⟨21, 98, 120, 70, 0, 37⟩ = 2 ∧
    calculate_news ⟨15, 98, 120, 70, 0, 37⟩ = 0 := by
  refine ⟨rfl, ?_, by norm_num [calculate_news], by norm_num [calculate_news],
    by norm_num [calculate_news], by norm_num [calculate_news]⟩
  have hsum : calculate_news row =
      rr_points row + spo2_points row + sbp_points row + hr_points row +
        consciousness_points row + temp_points row := rfl
  have h1 := rr_points_le row
  have h2 := spo2_points_le row
  have h3 := sbp_points_le row
  have h4 := hr_points_le row
  have h5 := consciousness_points_le row
  have h6 := temp_points_le row
  omega

/-- Batch unit normalizer, src/app.py lines 824-835 (clean_row): a glucose
value strictly between 0 and 30 is multiplied by 18 (assumed mmol/L), a
creatinine value above 20 is divided by 88.4 (assumed umol/L); the function
returns the pair of cleaned glucose and creatinine values. -/
def clean_row (Glucose Creatinine : ℚ) : ℚ × ℚ :=
  (if 0 < Glucose ∧ Glucose < 30 then Glucose * 18 else Glucose,
   if Creatinine > 20 then Creatinine / 88.4 else Creatinine)

/-- C5: the unit normalizer multiplies a glucose value below 30 by 18 (so
glucose 5.5 normalizes to 99 mg/dL) and divides a creatinine value above 20
by 88.4 (so creatinine 150 normalizes to about 1.696 mg/dL); values outside
those trigger ranges are unchanged. Stated for glucose in the declared
nonnegative lab range; for glucose 0 the code skips the branch but 0 times 18
is 0, so the claimed value still holds. -/
theorem unit_normalizer_heuristic (g c : ℚ) (hg : 0 ≤ g) :
    (g < 30 → (clean_row g c).1 = g * 18) ∧
    (30 ≤ g → (clean_row g c).1 = g) ∧
    (20 < c → (clean_row g c).2 = c / 88.4) ∧
    (c ≤ 20 → (clean_row g c).2 = c) ∧
    (clean_row 5.5 c).1 = 99 ∧
    (clean_row g 150).2 = 375 / 221 ∧
    |(clean_row g 150).2 - 1.696| < 1 / 1000 := by
  refine ⟨?_, ?_, ?_, ?_, ?_, ?_, ?_⟩
  · intro h
    rcases eq_or_lt_of_le hg with h0 | h0
    · have : ¬ (0 < g ∧ g < 30) := by rintro ⟨hpos, _⟩; rw [← h0] at hpos; exact lt_irrefl 0 hpos
      simp only [clean_row, if_neg this]
      rw [← h0]; ring
    · simp only [clean_row, if_pos (And.intro h0 h)]
  · intro h
    have : ¬ (0 < g ∧ g < 30) := by rintro ⟨_, hlt⟩; linarith
    simp only [clean_row, if_neg this]
  · intro h; simp only [clean_row, if_pos h]
  · intro h; simp only [clean_row]; rw [if_neg (not_lt.mpr h)]
  · norm_num [clean_row]
  · norm_num [clean_row]
  · norm_num [clean_row, abs_lt]

/-- Witness for C5 at glucose 5.5 mmol/L and creatinine 150 umol/L. -/
theorem unit_normalizer_heuristic_witness :
    (clean_row 5.5 150).1 = 99 ∧ (clean_row 5.5 150).2 = 375 / 221 :=
  ⟨(unit_normalizer_heuristic 5.5 150 (by norm_num)).2.2.2.2.1,
   (unit_normalizer_heuristic 5.5 150 (by norm_num)).2.2.2.2.2.1⟩

/-- Synthetic label weighted sum before clamping, src/train_model.py lines
27-34: the local variable score of the rules function. -/
def rules_score (anticoagulant : Bool) (inr : ℚ) (gi_bleed antiplatelet : Bool)
    (age : ℚ) (high_bp liver_disease : Bool) : ℚ :=
  (if anticoagulant then 35 else 0) + (if inr > 3.5 then 40 else 0) +
  (if gi_bleed then 30 else 0) + (if antiplatelet then 15 else 0) +
  (if age > 65 then 10 else 0) + (if high_bp then 10 else 0) +
  (if liver_disease then 15 else 0)

/-- Synthetic label rule, src/train_model.py lines 26-38: the weighted sum
plus a noise draw, clamped between 0 and 100. The Gaussian noise draw is
modelled as an arbitrary rational parameter. -/
def rules (anticoagulant : Bool) (inr : ℚ) (gi_bleed antiplatelet : Bool)
    (age : ℚ) (high_bp liver_disease : Bool) (noise : ℚ) : ℚ :=
  min (max (rules_score anticoagulant inr gi_bleed antiplatelet age high_bp liver_disease + noise) 0) 100

/-- Indicator of a Boolean risk flag as a rational. -/
def flag (b : Bool) : ℚ := if b then 1 else 0

lemma flag_mul (q : ℚ) (b : Bool) : (if b then q else 0) = q * flag b := by
  unfold flag; cases b <;> simp

/-- The label formula as the spec writes it: 35 times anticoagulant plus 40
times the INR indicator plus 30 times gi_bleed plus 15 times antiplatelet
plus 10 times the age indicator plus 10 times high_bp plus 15 times
liver_disease. -/
def weighted_label_sum (anticoagulant : Bool) (inr : ℚ) (gi_bleed antiplatelet : Bool)
    (age : ℚ) (high_bp liver_disease : Bool) : ℚ :=
  35 * flag anticoagulant + 40 * (if inr > 3.5 then 1 else 0) +
  30 * flag gi_bleed + 15 * flag antiplatelet +
  10 * (if age > 65 then 1 else 0) + 10 * flag high_bp + 15 * flag liver_disease

/-- C9: every synthetic training label equals the weighted sum
35 anticoagulant + 40 [INR over 3.5] + 30 gi_bleed + 15 antiplatelet +
10 [age over 65] + 10 high_bp + 15 liver_disease plus the noise draw,
clamped to the interval from 0 to 100; consequently every generated label
lies in that interval. -/
theorem synthetic_label_rule (a gb ap hb ld : Bool) (inr age noise : ℚ) :
    rules a inr gb ap age hb ld noise =
      min (max (weighted_label_sum a inr gb ap age hb ld + noise) 0) 100 ∧
    0 ≤ rules a inr gb ap age hb ld noise ∧
    rules a inr gb ap age hb ld noise ≤ 100 := by
  refine ⟨?_, ?_, ?_⟩
  · unfold rules rules_score weighted_label_sum
    rw [flag_mul 35 a, flag_mul 30 gb, flag_mul 15 ap, flag_mul 10 hb, flag_mul 15 ld]
    split_ifs <;> ring
  · exact le_min (le_max_right _ 0) (by norm_num)
  · exact min_le_right _ 100

/-- The 9-feature vector handed to the bleeding model at predict time. -/
structure Features where
  age : ℚ
  inr : ℚ
  anticoagulant : ℚ
  gi_bleed : ℚ
  high_bp : ℚ
  antiplatelet : ℚ
  gender_female : ℚ
  weight : ℚ
  liver_disease : ℚ
deriving DecidableEq

/-- One uploaded batch row, restricted to the columns the batch feature
builder of src/app.py lines 892-901 can touch: the columns it reads, plus the
Gender column of the upload and a possible Antiplatelet column, both of which
it never reads. -/
structure BatchRow where
  Age : ℚ
  Gender : String
  Weight_kg : ℚ
  Systolic_BP : ℚ
  INR : ℚ
  Anticoagulant : ℚ
  Hx_GI_Bleed : ℚ
  Liver_Disease : ℚ
  Antiplatelet : ℚ

/-- Batch feature construction, src/app.py lines 892-901: antiplatelet and
gender_female are hard-coded to 0; high_bp is 1 when Systolic_BP is above
140, else 0. -/
def model_inputs (r : BatchRow) : Features :=
  { age := r.Age, inr := r.INR, anticoagulant := r.Anticoagulant,
    gi_bleed := r.Hx_GI_Bleed,
    high_bp := if r.Systolic_BP > 140 then 1 else 0,
    antiplatelet := 0, gender_female := 0,
    weight := r.Weight_kg, liver_disease := r.Liver_Disease }

/-- C10: the batch feature vector always has antiplatelet 0 and gender_female
0, and two uploaded rows that agree on every column the builder reads (so in
particular rows differing only in Gender or antiplatelet data) produce the
same feature vector, hence the same Bleed_Risk output under any predictor. -/
theorem batch_gender_blind (r₁ r₂ : BatchRow)
    (hAge : r₁.Age = r₂.Age) (hInr : r₁.INR = r₂.INR)
    (hAc : r₁.Anticoagulant = r₂.Anticoagulant)
    (hGi : r₁.Hx_GI_Bleed = r₂.Hx_GI_Bleed)
    (hSbp : r₁.Systolic_BP = r₂.Systolic_BP)
    (hW : r₁.Weight_kg = r₂.Weight_kg)
    (hLd : r₁.Liver_Disease = r₂.Liver_Disease) :
    (model_inputs r₁).antiplatelet = 0 ∧ (model_inputs r₁).gender_female = 0 ∧
    model_inputs r₁ = model_inputs r₂ ∧
    ∀ predict : Features → ℚ, predict (model_inputs r₁) = predict (model_inputs r₂) := by
  have h : model_inputs r₁ = model_inputs r₂ := by
    unfold model_inputs
    rw [hAge, hInr, hAc, hGi, hSbp, hW, hLd]
  exact ⟨rfl, rfl, h, fun predict => congrArg predict h⟩

/-- Witness for C10: two concrete rows that differ only in the Gender column
and in antiplatelet information have equal feature vectors. -/
theorem batch_gender_blind_witness :
    model_inputs ⟨72, "Male", 65, 90, 1.2, 0, 0, 0, 0⟩ =
      model_inputs ⟨72, "Female", 65, 90, 1.2, 0, 0, 0, 1⟩ :=
  (batch_gender_blind ⟨72, "Male", 65, 90, 1.2, 0, 0, 0, 0⟩
    ⟨72, "Female", 65, 90, 1.2, 0, 0, 0, 1⟩
    rfl rfl rfl rfl rfl rfl rfl).2.2.1

/-- The predict interface of the trained bleeding model. -/
def Model : Type := Features → ℚ

/-- Result of the application startup, src/app.py lines 44-48: the model load
is attempted inside try; on exception the script reports the error message
and stops, so no module of the dashboard is ever rendered. -/
inductive AppStart
  | running (model : Model)
  | halted (message : String)

/-- Startup logic, src/app.py lines 44-48: a successful load yields the
running app holding the model, a load exception yields the halted app
carrying the reported error text. -/
def app_startup : Except String Model → AppStart
  | Except.ok m => AppStart.running m
  | Except.error e => AppStart.halted ("Model failed to load: " ++ e)

/-- Bleeding risk reported for a feature vector: a value exists only when
the app is running with a loaded model; a halted app reports no score. -/
def reported_bleeding_risk : AppStart → Features → Option ℚ
  | AppStart.running m, f => some (m f)
  | AppStart.halted _, _ => none

/-- C8: when the bleeding-model artifact fails to load, the engine reports
the load error explicitly, never reaches the running state in which the
risk-calculator flow exists, and reports no bleeding-risk value at all, so
the risk is never silently reported as 0. -/
theorem model_load_failure_halts (e : String) :
    app_startup (Except.error e) = AppStart.halted ("Model failed to load: " ++ e) ∧
    (∀ m : Model, app_startup (Except.error e) ≠ AppStart.running m) ∧
    (∀ f : Features, reported_bleeding_risk (app_startup (Except.error e)) f = none) := by
  refine ⟨rfl, ?_, fun f => rfl⟩
  intro m h
  exact AppStart.noConfusion h

/-- The analysis-results record res stored in the session state by the risk
calculator, src/app.py lines 251-262, restricted to the keys the alert
cascade reads. Every numeric value is a rational; the value 0 is the
not-provided sentinel. The hba1c_high field models the res.get lookup of a
key the stored record never sets, whose lookup default is False. -/
structure Res where
  age : ℚ
  weight : ℚ
  sys_bp : ℚ
  dia_bp : ℚ
  hr : ℚ
  resp_rate : ℚ
  temp_c : ℚ
  o2_sat : ℚ
  potassium : ℚ
  bun : ℚ
  wbc : ℚ
  hgb : ℚ
  platelets : ℚ
  lactate : ℚ
  glucose : ℚ
  bleeding_risk : ℚ
  aki_risk : ℚ
  sepsis_risk : ℚ
  hypo_risk : ℚ
  sirs_score : ℚ
  map_val : ℚ
  bmi : ℚ
  shock_index : ℚ
  pulse_pressure : ℚ
  hba1c_high : Bool

/-- Parameter a clinical alert is attached to, one constructor per rule
family of the cascade in src/app.py lines 304-534. -/
inductive Param
  | spo2 | respRate | bloodPressure | heartRate | temperature | glucose
  | potassium | hemoglobin | wbc | platelets | lactate | dka | respAcidosis
  | bun | mapPerfusion | shockIndex | akiModel | bleedingModel | sepsisModel
  | hypoModel | sirs | pulsePressure
deriving DecidableEq

/-- Severity of an emitted alert: an st.error call is critical and an
st.warning call is warning. -/
inductive Severity
  | warning | critical
deriving DecidableEq

/-- One emitted alert: its parameter, its severity, and whether the emitting
block also executes violations += 1. -/
structure Alert where
  param : Param
  severity : Severity
  counts : Bool
deriving DecidableEq

/-- Rule 1, SpO2 hypoxia, src/app.py lines 306-313. -/
def spo2_alerts (res : Res) : List Alert :=
  if res.o2_sat > 0 ∧ res.o2_sat < 88 then [⟨Param.spo2, Severity.critical, true⟩]
  else if res.o2_sat > 0 ∧ res.o2_sat < 92 then [⟨Param.spo2, Severity.warning, true⟩]
  else []

/-- Rule 2, respiratory rate, src/app.py lines 316-323. -/
def resp_rate_alerts (res : Res) : List Alert :=
  if res.resp_rate > 30 then [⟨Param.respRate, Severity.critical, true⟩]
  else if res.resp_rate < 8 ∧ res.resp_rate > 0 then [⟨Param.respRate, Severity.critical, true⟩]
  else []

/-- Rule 3, blood pressure, src/app.py lines 327-334. -/
def bp_alerts (res : Res) : List Alert :=
  if res.sys_bp > 180 ∨ res.dia_bp > 120 then [⟨Param.bloodPressure, Severity.critical, true⟩]
  else if res.sys_bp > 0 ∧ res.sys_bp < 90 then [⟨Param.bloodPressure, Severity.critical, true⟩]
  else []

/-- Rule 4, heart rate, src/app.py lines 337-344. -/
def hr_alerts (res : Res) : List Alert :=
  if res.hr > 130 then [⟨Param.heartRate, Severity.critical, true⟩]
  else if res.hr > 0 ∧ res.hr < 40 then [⟨Param.heartRate, Severity.critical, true⟩]
  else []

/-- Rule 5, temperature, src/app.py lines 348-355. -/
def temp_alerts (res : Res) : List Alert :=
  if res.temp_c > 39.0 then [⟨Param.temperature, Severity.critical, true⟩]
  else if res.temp_c < 35.0 ∧ res.temp_c > 0 then [⟨Param.temperature, Severity.critical, true⟩]
  else []

/-- Rule 6, glucose spectrum, src/app.py lines 362-378. -/
def glucose_alerts (res : Res) : List Alert :=
  if res.glucose > 400 then [⟨Param.glucose, Severity.critical, true⟩]
  else if res.glucose > 180 then [⟨Param.glucose, Severity.warning, true⟩]
  else if res.glucose > 0 ∧ res.glucose < 70 then [⟨Param.glucose, Severity.critical, true⟩]
  else []

/-- Rule 7, potassium, src/app.py lines 381-388. -/
def potassium_alerts (res : Res) : List Alert :=
  if res.potassium > 6.0 then [⟨Param.potassium, Severity.critical, true⟩]
  else if res.potassium > 0 ∧ res.potassium < 2.5 then [⟨Param.potassium, Severity.critical, true⟩]
  else []

/-- Rule 8a, hemoglobin, src/app.py lines 392-399. -/
def hgb_alerts (res : Res) : List Alert :=
  if res.hgb > 0 ∧ res.hgb < 7.0 then [⟨Param.hemoglobin, Severity.critical, true⟩]
  else if res.hgb > 18.0 then [⟨Param.hemoglobin, Severity.warning, true⟩]
  else []

/-- Rule 8b, white blood cells, src/app.py lines 402-409. -/
def wbc_alerts (res : Res) : List Alert :=
  if res.wbc > 0 ∧ res.wbc < 1.0 then [⟨Param.wbc, Severity.critical, true⟩]
  else if res.wbc > 20.0 then [⟨Param.wbc, Severity.critical, true⟩]
  else []

/-- Rule 8c, platelets, src/app.py lines 412-419. -/
def platelet_alerts (res : Res) : List Alert :=
  if res.platelets > 0 ∧ res.platelets < 20 then [⟨Param.platelets, Severity.critical, true⟩]
  else if res.platelets > 1000 then [⟨Param.platelets, Severity.warning, true⟩]
  else []

/-- Rule 9, lactate, src/app.py lines 423-430. -/
def lactate_alerts (res : Res) : List Alert :=
  if res.lactate > 4.0 then [⟨Param.lactate, Severity.critical, true⟩]
  else if res.lactate ≥ 2.0 then [⟨Param.lactate, Severity.warning, true⟩]
  else []

/-- Rule 10, diabetic ketoacidosis risk, src/app.py lines 433-436. -/
def dka_alerts (res : Res) : List Alert :=
  if res.glucose > 250 ∧ res.hba1c_high = true then [⟨Param.dka, Severity.warning, true⟩]
  else []

/-- Rule 11, respiratory acidosis commentary, src/app.py lines 440-443: the
alert fires but deliberately does not increment the violation counter. -/
def resp_acidosis_alerts (res : Res) : List Alert :=
  if res.resp_rate > 0 ∧ res.resp_rate < 8 then [⟨Param.respAcidosis, Severity.critical, false⟩]
  else []

/-- Rule 12, BUN uremia, src/app.py lines 446-449. -/
def bun_alerts (res : Res) : List Alert :=
  if res.bun > 40 then [⟨Param.bun, Severity.warning, true⟩] else []

/-- Rule 13, low mean arterial pressure, src/app.py lines 452-455. -/
def map_alerts (res : Res) : List Alert :=
  if res.map_val > 0 ∧ res.map_val < 65 then [⟨Param.mapPerfusion, Severity.critical, true⟩]
  else []

/-- Duplicated BUN block, src/app.py lines 459-462: a second copy of the BUN
rule under a second section heading, again incrementing the counter. -/
def bun_alerts_dup (res : Res) : List Alert :=
  if res.bun > 40 then [⟨Param.bun, Severity.warning, true⟩] else []

/-- Duplicated MAP block, src/app.py lines 466-469: a second copy of the MAP
rule, again incrementing the counter. -/
def map_alerts_dup (res : Res) : List Alert :=
  if res.map_val > 0 ∧ res.map_val < 65 then [⟨Param.mapPerfusion, Severity.critical, true⟩]
  else []

/-- Rule on the shock index, src/app.py lines 473-476. -/
def shock_alerts (res : Res) : List Alert :=
  if res.shock_index > 0.9 then [⟨Param.shockIndex, Severity.warning, true⟩] else []

/-- Rule 14, AKI risk model, src/app.py lines 481-488. -/
def aki_alerts (res : Res) : List Alert :=
  if res.aki_risk ≥ 50 then [⟨Param.akiModel, Severity.critical, true⟩]
  else if res.aki_risk ≥ 20 then [⟨Param.akiModel, Severity.warning, true⟩]
  else []

/-- Rule 15, bleeding risk model, src/app.py lines 492-499. -/
def bleeding_alerts (res : Res) : List Alert :=
  if res.bleeding_risk ≥ 50 then [⟨Param.bleedingModel, Severity.critical, true⟩]
  else if res.bleeding_risk ≥ 20 then [⟨Param.bleedingModel, Severity.warning, true⟩]
  else []

/-- Rule 16, sepsis prediction, src/app.py lines 503-506: the guard compares
the stored qSOFA value against 45. -/
def sepsis_alerts (res : Res) : List Alert :=
  if res.sepsis_risk ≥ 45 then [⟨Param.sepsisModel, Severity.critical, true⟩] else []

/-- Rule 17, hypoglycemia risk, src/app.py lines 510-513. -/
def hypo_alerts (res : Res) : List Alert :=
  if res.hypo_risk ≥ 50 then [⟨Param.hypoModel, Severity.warning, true⟩] else []

/-- Rule 18, SIRS criteria, src/app.py lines 518-521. -/
def sirs_alerts (res : Res) : List Alert :=
  if res.sirs_score ≥ 2 then [⟨Param.sirs, Severity.warning, true⟩] else []

/-- Rule 19, pulse pressure, src/app.py lines 526-534. -/
def pp_alerts (res : Res) : List Alert :=
  if res.pulse_pressure > 60 then [⟨Param.pulsePressure, Severity.warning, true⟩]
  else if res.pulse_pressure < 25 ∧ res.pulse_pressure > 0 then
    [⟨Param.pulsePressure, Severity.critical, true⟩]
  else []

/-- The full alert cascade, src/app.py lines 300-534: all rule blocks are
evaluated in source order and every fired alert is collected. -/
def cascade_alerts (res : Res) : List Alert :=
  spo2_alerts res ++ resp_rate_alerts res ++ bp_alerts res ++ hr_alerts res ++
  temp_alerts res ++ glucose_alerts res ++ potassium_alerts res ++ hgb_alerts res ++
  wbc_alerts res ++ platelet_alerts res ++ lactate_alerts res ++ dka_alerts res ++
  resp_acidosis_alerts res ++ bun_alerts res ++ map_alerts res ++ bun_alerts_dup res ++
  map_alerts_dup res ++ shock_alerts res ++ aki_alerts res ++ bleeding_alerts res ++
  sepsis_alerts res ++ hypo_alerts res ++ sirs_alerts res ++ pp_alerts res

/-- The violation counter after the cascade: the number of fired blocks that
execute violations += 1 (every fired alert except the respiratory-acidosis
commentary counts). -/
def violations (res : Res) : ℕ := (cascade_alerts res).countP (fun a => a.counts)

/-- Res record with every numeric field at the not-provided sentinel 0 and
no history flag set. -/
def emptyRes : Res :=
  { age := 0, weight := 0, sys_bp := 0, dia_bp := 0, hr := 0, resp_rate := 0,
    temp_c := 0, o2_sat := 0, potassium := 0, bun := 0, wbc := 0, hgb := 0,
    platelets := 0, lactate := 0, glucose := 0, bleeding_risk := 0,
    aki_risk := 0, sepsis_risk := 0, hypo_risk := 0, sirs_score := 0,
    map_val := 0, bmi := 0, shock_index := 0, pulse_pressure := 0,
    hba1c_high := false }

/-- C4 evaluated at the failing inputs: a record whose only abnormal reading
is BUN 50 makes the cascade fire the BUN rule twice, emitting two identical
alerts and incrementing the violation counter twice, because the BUN block
appears twice in the source; a record whose only abnormal value is MAP 50
likewise gets two MAP alerts and two increments. The claim says exactly one
alert and one increment for each single reading. -/
theorem duplicate_bun_map_alerts :
    cascade_alerts { emptyRes with bun := 50 } =
      [⟨Param.bun, Severity.warning, true⟩, ⟨Param.bun, Severity.warning, true⟩] ∧
    violations { emptyRes with bun := 50 } = 2 ∧
    cascade_alerts { emptyRes with map_val := 50 } =
      [⟨Param.mapPerfusion, Severity.critical, true⟩, ⟨Param.mapPerfusion, Severity.critical, true⟩] ∧
    violations { emptyRes with map_val := 50 } = 2 := by
  refine ⟨?_, ?_, ?_, ?_⟩ <;>
    norm_num [violations, cascade_alerts, spo2_alerts, resp_rate_alerts, bp_alerts,
      hr_alerts, temp_alerts, glucose_alerts, potassium_alerts, hgb_alerts, wbc_alerts,
      platelet_alerts, lactate_alerts, dka_alerts, resp_acidosis_alerts, bun_alerts,
      map_alerts, bun_alerts_dup, map_alerts_dup, shock_alerts, aki_alerts,
      bleeding_alerts, sepsis_alerts, hypo_alerts, sirs_alerts, pp_alerts, emptyRes,
      List.countP_cons, List.countP_nil]

lemma sepsis_alerts_eq_nil (r : Res) (hr : r.sepsis_risk ≤ 3) : sepsis_alerts r = [] := by
  unfold sepsis_alerts
  rw [if_neg]
  intro hge
  linarith

/-- C6: for every stored sepsis score in the qSOFA range 0 to 3, the sepsis
branch of the cascade (guard sepsis_risk at least 45) is unreachable: the
cascade emits no sepsis alert, and its whole output, so in particular the
violation counter, does not depend on the sepsis score within that range. -/
theorem sepsis_alert_unreachable (res : Res)
    (_h0 : 0 ≤ res.sepsis_risk) (h3 : res.sepsis_risk ≤ 3) :
    (cascade_alerts res).countP (fun a => decide (a.param = Param.sepsisModel)) = 0 ∧
    ∀ s : ℚ, 0 ≤ s → s ≤ 3 →
      cascade_alerts { res with sepsis_risk := s } = cascade_alerts res := by
  constructor
  · have e1 : (spo2_alerts res).countP (fun a => decide (a.param = Param.sepsisModel)) = 0 := by
      unfold spo2_alerts; split_ifs <;> rfl
    have e2 : (resp_rate_alerts res).countP (fun a => decide (a.param = Param.sepsisModel)) = 0 := by
      unfold resp_rate_alerts; split_ifs <;> rfl
    have e3 : (bp_alerts res).countP (fun a => decide (a.param = Param.sepsisModel)) = 0 := by
      unfold bp_alerts; split_ifs <;> rfl
    have e4 : (hr_alerts res).countP (fun a => decide (a.param = Param.sepsisModel)) = 0 := by
      unfold hr_alerts; split_ifs <;> rfl
    have e5 : (temp_alerts res).countP (fun a => decide (a.param = Param.sepsisModel)) = 0 := by
      unfold temp_alerts; split_ifs <;> rfl
    have e6 : (glucose_alerts res).countP (fun a => decide (a.param = Param.sepsisModel)) = 0 := by
      unfold glucose_alerts; split_ifs <;> rfl
    have e7 : (potassium_alerts res).countP (fun a => decide (a.param = Param.sepsisModel)) = 0 := by
      unfold potassium_alerts; split_ifs <;> rfl
    have e8 : (hgb_alerts res).countP (fun a => decide (a.param = Param.sepsisModel)) = 0 := by
      unfold hgb_alerts; split_ifs <;> rfl
    have e9 : (wbc_alerts res).countP (fun a => decide (a.param = Param.sepsisModel)) = 0 := by
      unfold wbc_alerts; split_ifs <;> rfl
    have e10 : (platelet_alerts res).countP (fun a => decide (a.param = Param.sepsisModel)) = 0 := by
      unfold platelet_alerts; split_ifs <;> rfl
    have e11 : (lactate_alerts res).countP (fun a => decide (a.param = Param.sepsisModel)) = 0 := by
      unfold lactate_alerts; split_ifs <;> rfl
    have e12 : (dka_alerts res).countP (fun a => decide (a.param = Param.sepsisModel)) = 0 := by
      unfold dka_alerts; split_ifs <;> rfl
    have e13 : (resp_acidosis_alerts res).countP (fun a => decide (a.param = Param.sepsisModel)) = 0 := by
      unfold resp_acidosis_alerts; split_ifs <;> rfl
    have e14 : (bun_alerts res).countP (fun a => decide (a.param = Param.sepsisModel)) = 0 := by
      unfold bun_alerts; split_ifs <;> rfl
    have e15 : (map_alerts res).countP (fun a => decide (a.param = Param.sepsisModel)) = 0 := by
      unfold map_alerts; split_ifs <;> rfl
    have e16 : (bun_alerts_dup res).countP (fun a => decide (a.param = Param.sepsisModel)) = 0 := by
      unfold bun_alerts_dup; split_ifs <;> rfl
    have e17 : (map_alerts_dup res).countP (fun a => decide (a.param = Param.sepsisModel)) = 0 := by
      unfold map_alerts_dup; split_ifs <;> rfl
    have e18 : (shock_alerts res).countP (fun a => decide (a.param = Param.sepsisModel)) = 0 := by
      unfold shock_alerts; split_ifs <;> rfl
    have e19 : (aki_alerts res).countP (fun a => decide (a.param = Param.sepsisModel)) = 0 := by
      unfold aki_alerts; split_ifs <;> rfl
    have e20 : (bleeding_alerts res).countP (fun a => decide (a.param = Param.sepsisModel)) = 0 := by
      unfold bleeding_alerts; split_ifs <;> rfl
    have e21 : (hypo_alerts res).countP (fun a => decide (a.param = Param.sepsisModel)) = 0 := by
      unfold hypo_alerts; split_ifs <;> rfl
    have e22 : (sirs_alerts res).countP (fun a => decide (a.param = Param.sepsisModel)) = 0 := by
      unfold sirs_alerts; split_ifs <;> rfl
    have e23 : (pp_alerts res).countP (fun a => decide (a.param = Param.sepsisModel)) = 0 := by
      unfold pp_alerts; split_ifs <;> rfl
    unfold cascade_alerts
    simp [List.countP_append, sepsis_alerts_eq_nil res h3, e1, e2, e3, e4, e5, e6, e7,
      e8, e9, e10, e11, e12, e13, e14, e15, e16, e17, e18, e19, e20, e21, e22, e23]
  · intro s hs0 hs3
    have h1 : sepsis_alerts { res with sepsis_risk := s } = [] :=
      sepsis_alerts_eq_nil { res with sepsis_risk := s } hs3
    have h2 : sepsis_alerts res = [] := sepsis_alerts_eq_nil res h3
    unfold cascade_alerts
    rw [h1, h2]
    rfl

/-- Witness for C6 at the maximal qSOFA value 3: the cascade for the
otherwise empty record with sepsis score 3 contains no sepsis alert. -/
theorem sepsis_alert_unreachable_witness :
    (cascade_alerts { emptyRes with sepsis_risk := 3 }).countP
      (fun a => decide (a.param = Param.sepsisModel)) = 0 :=
  (sepsis_alert_unreachable { emptyRes with sepsis_risk := 3 }
    (by norm_num [emptyRes]) (by norm_num [emptyRes])).1

/-- Demographics presence check, src/app.py lines 540-544. -/
def has_demographics (res : Res) : Prop :=
  res.age > 0 ∨ res.weight > 0 ∨ res.bmi > 0

instance (res : Res) : Decidable (has_demographics res) := by
  unfold has_demographics; infer_instance

/-- Vitals presence check, src/app.py lines 547-553. -/
def has_vitals (res : Res) : Prop :=
  res.sys_bp > 0 ∨ res.hr > 0 ∨ res.o2_sat > 0 ∨ res.glucose > 0 ∨ res.temp_c > 0

instance (res : Res) : Decidable (has_vitals res) := by
  unfold has_vitals; infer_instance

/-- The informational notices of the final safety logic. -/
inductive Notice
  | noData | missingVitals | stableOk
deriving DecidableEq

/-- Final safety logic, src/app.py lines 556-567: when the violation counter
is zero, exactly one informational notice is shown, chosen by the
demographics and vitals presence checks; otherwise none of them is shown. -/
def final_notices (res : Res) : List Notice :=
  if violations res = 0 then
    if ¬ has_demographics res ∧ ¬ has_vitals res then [Notice.noData]
    else if has_demographics res ∧ ¬ has_vitals res then [Notice.missingVitals]
    else [Notice.stableOk]
  else []

/-- C7: whenever the violation counter ends at zero, exactly one
informational notice is emitted: the no-data notice when neither
demographics nor vitals were supplied, the missing-vitals notice when
demographics are present but vitals are not, and the stable notice
otherwise. -/
theorem zero_violation_notices (res : Res) (h : violations res = 0) :
    (final_notices res).length = 1 ∧
    (¬ has_demographics res ∧ ¬ has_vitals res → final_notices res = [Notice.noData]) ∧
    (has_demographics res ∧ ¬ has_vitals res → final_notices res = [Notice.missingVitals]) ∧
    (has_vitals res → final_notices res = [Notice.stableOk]) := by
  unfold final_notices
  rw [if_pos h]
  split_ifs with h1 h2
  · exact ⟨rfl, fun _ => rfl, fun hc => absurd hc.1 h1.1, fun hv => absurd hv h1.2⟩
  · exact ⟨rfl, fun hc => absurd hc h1, fun _ => rfl, fun hv => absurd hv h2.2⟩
  · exact ⟨rfl, fun hc => absurd hc h1, fun hc => absurd hc h2, fun _ => rfl⟩

/-- Witness for C7: the all-sentinel record has zero violations, and the
cascade then emits exactly the no-data notice. -/
theorem zero_violation_notices_witness :
    violations emptyRes = 0 ∧ final_notices emptyRes = [Notice.noData] := by
  have h0 : violations emptyRes = 0 := by
    norm_num [violations, cascade_alerts, spo2_alerts, resp_rate_alerts, bp_alerts,
      hr_alerts, temp_alerts, glucose_alerts, potassium_alerts, hgb_alerts, wbc_alerts,
      platelet_alerts, lactate_alerts, dka_alerts, resp_acidosis_alerts, bun_alerts,
      map_alerts, bun_alerts_dup, map_alerts_dup, shock_alerts, aki_alerts,
      bleeding_alerts, sepsis_alerts, hypo_alerts, sirs_alerts, pp_alerts, emptyRes]
  refine ⟨h0, (zero_violation_notices emptyRes h0).2.1 ⟨?_, ?_⟩⟩
  · norm_num [has_demographics, emptyRes]
  · norm_num [has_vitals, emptyRes]

/-- One row of the triage waiting-room board, src/app.py lines 1031-1039,
restricted to the columns the priority logic reads, plus the patient id. -/
structure TriageRow where
  patient_id : String
  sirs_score : ℤ
  o2_sat : ℤ

/-- Priority tier label, src/app.py lines 1042-1048. The labels carry the
emoji prefix exactly as in the source, because the board is sorted by
comparing these label strings. -/
def assign_priority (row : TriageRow) : String :=
  if row.sirs_score ≥ 3 ∨ row.o2_sat < 90 then "🔴 CRITICAL (Immed)"
  else if row.sirs_score ≥ 2 then "🟡 URGENT (15m)"
  else "🟢 NON-URGENT"

/-- The canned waiting-room data, src/app.py lines 1031-1039: SIRS scores
1, 4, 0, 3, 0 and oxygen saturations 98, 88, 99, 91, 99 in arrival order. -/
def triage_data : List TriageRow :=
  [⟨"PT-1092", 1, 98⟩, ⟨"PT-1093", 4, 88⟩, ⟨"PT-1094", 0, 99⟩,
   ⟨"PT-1095", 3, 91⟩, ⟨"PT-1096", 0, 99⟩]

/-- Code-point lexicographic strict order on character lists: the comparison
Python applies when pandas sorts the priority label strings. -/
def chars_lt : List Char → List Char → Bool
  | [], [] => false
  | [], _ :: _ => true
  | _ :: _, [] => false
  | a :: as, b :: bs =>
    if a.val < b.val then true else if b.val < a.val then false else chars_lt as bs

/-- Strict order on the label strings, by code points. -/
def label_lt (a b : String) : Bool := chars_lt a.data b.data

/-- Stable insertion by ascending priority label: the incoming row, which is
earlier in arrival order than every row already placed, goes before the
first row whose label is not strictly smaller. -/
def insert_by_priority (x : TriageRow) : List TriageRow → List TriageRow
  | [] => [x]
  | y :: ys =>
    if label_lt (assign_priority y) (assign_priority x) then y :: insert_by_priority x ys
    else x :: y :: ys

/-- Stable ascending sort of the board by priority label. For the five-row
board, numpy argsort with the quicksort kind runs its insertion sort
(arrays shorter than 16 elements), which is exactly this stable sort. -/
def sort_priority_asc : List TriageRow → List TriageRow
  | [] => []
  | x :: xs => insert_by_priority x (sort_priority_asc xs)

/-- The displayed board, src/app.py line 1053: sort_values by the Priority
column with ascending False. For descending order the pandas nargsort helper
reverses the values and their indices, computes the ascending argsort of the
reversed values, and reverses the resulting indexer again; with the
underlying argsort stable this double reversal is a stable descending sort,
so rows with equal labels keep their arrival order. At the row-list level
this is: reverse the board, sort it stably ascending, reverse the result. -/
def sorted_triage_board : List TriageRow := (sort_priority_asc triage_data.reverse).reverse

/-- C3 evaluated on the board data: the tier labels themselves are assigned
as the claim says (rows at arrival indices 1 and 3 are Critical), and the
stable descending sort preserves arrival order within each tier, but it
places the green NON-URGENT label first, because the green circle emoji has
the largest code point. The board comes out PT-1092, PT-1094, PT-1096,
PT-1093, PT-1095: both Critical rows, though in their arrival order, end up
after every Non-urgent row, while the claim (and the source comment above
line 1053) says Critical rows come first. -/
theorem triage_board_order :
    assign_priority ⟨"PT-1093", 4, 88⟩ = "🔴 CRITICAL (Immed)" ∧
    assign_priority ⟨"PT-1095", 3, 91⟩ = "🔴 CRITICAL (Immed)" ∧
    sorted_triage_board.map TriageRow.patient_id =
      ["PT-1092", "PT-1094", "PT-1096", "PT-1093", "PT-1095"] ∧
    sorted_triage_board.map assign_priority =
      ["🟢 NON-URGENT", "🟢 NON-URGENT", "🟢 NON-URGENT",
       "🔴 CRITICAL (Immed)", "🔴 CRITICAL (Immed)"] := by
  refine ⟨?_, ?_, ?_, ?_⟩ <;> decide

end CDSS
